import Mathlib

/-!
Verification of the BigBlueButton presentation recorder's session controller
(the `Recorder` class in `src/lib/recorder.js`), its chunk sink (`saveChunk`),
its encode supervisor (`convertToMP4`), and the progress bus
(`broadcastProgress` in `src/pages/api/record.js`), as a shallow embedding.
Machine floats of the source are modelled as exact rationals; file contents
are byte lists; the asynchronous promise chain of chunk writes is modelled as
an explicit FIFO queue processed by an abstract event loop.
-/

namespace BBBRecorder

/-! ### Configuration constants, from the `Recorder` constructor -/

/-- `this.BASE_TIMEOUT = 120000` in the `Recorder` constructor. -/
def BASE_TIMEOUT : ℚ := 120000

/-- The size-to-duration throughput constant: the source estimates
1 MB ≈ 10000 ms of video (`fileSizeMB * 10000`). -/
def THROUGHPUT_MS_PER_MB : ℚ := 10000

/-- The processing multiplier `5` applied to the estimated duration in
`convertToMP4` (`fileSizeMB * 10000 * 5`). -/
def MAX_PROCESSING_MULTIPLIER : ℚ := 5

/-! ### Playback rate clamping (Recorder constructor)

```js
const rateFromEnv = parseFloat(process.env.BBB_PLAYBACK_RATE || '1.0');
this.playbackRate = Number.isFinite(rateFromEnv) && rateFromEnv > 0
    ? Math.min(2, Math.max(0.5, rateFromEnv))
    : 1.0;
```
`isFinite` is true when `parseFloat` produced a finite number; a finite
requested value is modelled exactly as a rational. -/

def playbackRateOf (isFinite : Bool) (rate : ℚ) : ℚ :=
  if isFinite = true ∧ 0 < rate then min 2 (max (1/2) rate) else 1

/-! ### Encode deadline (Recorder.convertToMP4)

```js
const fileSizeMB = stats.size / (1024 * 1024);
const estimatedDurationMs = Math.max(this.BASE_TIMEOUT, fileSizeMB * 10000 * 5);
```
-/

/-- The deadline handed to `setTimeout` before killing FFmpeg, as computed in
`convertToMP4` from the raw capture file size in bytes. -/
def estimatedDurationMs (sizeBytes : ℕ) : ℚ :=
  max BASE_TIMEOUT (((sizeBytes : ℚ) / (1024 * 1024)) * 10000 * 5)

/-- The spec's decomposition of the deadline: a size-derived duration estimate
under the fixed throughput assumption (size in MB times a constant). -/
def estimatedInputDurationMs (sizeBytes : ℕ) : ℚ :=
  ((sizeBytes : ℚ) / (1024 * 1024)) * THROUGHPUT_MS_PER_MB

/-! ### Recorder events

The `Recorder` reports through two callbacks:
`progressCallback(type, payload)` with `type ∈ {progress, complete}` and
`errorCallback(message)`.  A payload may or may not carry a `progress`
percentage field, modelled as `Option Int`. -/

inductive REvent where
  | progress (msg : String) (pct : Option Int)
  | complete (msg : String)
  | error (msg : String)
deriving DecidableEq, Repr

def isCompleteEv : REvent → Bool
  | .complete _ => true
  | _ => false

def isErrorEv : REvent → Bool
  | .error _ => true
  | _ => false

def completeCount (l : List REvent) : ℕ := (l.filter isCompleteEv).length

def errorCount (l : List REvent) : ℕ := (l.filter isErrorEv).length

/-- The `progress` percentage values carried by a list of events (events
without a `progress` field contribute nothing). -/
def progressVals (l : List REvent) : List Int :=
  l.filterMap fun e =>
    match e with
    | .progress _ v => v
    | _ => none

/-! ### Monitor percentage (Recorder.startRecordingMonitor)

```js
const playbackPercent = duration
  ? Math.min(100, Math.round((currentTime / duration) * 100)) : 0;
...
progress: Math.min(99, playbackPercent),
```
`Math.round x = ⌊x + 1/2⌋` for the non-negative values involved. -/

def jsRound (x : ℚ) : ℤ := ⌊x + 1/2⌋

def playbackPercent (currentTime duration : ℚ) : ℤ :=
  if duration = 0 then 0 else min 100 (jsRound (currentTime / duration * 100))

/-- The percentage the monitor actually places in the `progress` field. -/
def emittedPercent (currentTime duration : ℚ) : ℤ :=
  min 99 (playbackPercent currentTime duration)

/-- The percentage formula as the spec words it:
`floor(min(100, currentPosition/duration * 100))` clamped to 99.  Stated for
comparison with `emittedPercent`, which is what the source computes. -/
def claimedPercent (currentTime duration : ℚ) : ℤ :=
  if duration = 0 then 0
  else min 99 (⌊min 100 (currentTime / duration * 100)⌋)

/-! ### Chunk sink (Recorder.saveChunk)

```js
this.lastChunkPromise = this.lastChunkPromise.then(() => new Promise(...
    this.writeStream.write(buffer, ...)));
```
Each arriving chunk synchronously chains its write after the previous one, so
pending writes form a FIFO queue; the event loop later executes them in queue
order.  `arrive` is the synchronous part of `saveChunk`, `flush` is the event
loop completing the oldest pending write. -/

structure SinkState where
  chain : List (List ℕ)
  file : List ℕ
  totalSize : ℕ
deriving Repr

def sinkInit : SinkState := ⟨[], [], 0⟩

inductive SinkOp where
  | arrive (chunk : List ℕ)
  | flush

def sinkStep (s : SinkState) : SinkOp → SinkState
  | .arrive c => ⟨s.chain ++ [c], s.file, s.totalSize⟩
  | .flush =>
      match s.chain with
      | [] => s
      | c :: rest => ⟨rest, s.file ++ c, s.totalSize + c.length⟩

def runSink (s : SinkState) (ops : List SinkOp) : SinkState :=
  ops.foldl sinkStep s

/-- `close()` on the write stream drains every outstanding chained write
before returning. -/
def drainSink (s : SinkState) : SinkState :=
  ⟨[], s.file ++ s.chain.flatten, s.totalSize + (s.chain.map List.length).sum⟩

/-- The chunks delivered to `saveChunk`, in arrival order. -/
def arrivals (ops : List SinkOp) : List (List ℕ) :=
  ops.filterMap fun o =>
    match o with
    | .arrive c => some c
    | .flush => none

/-! ### Session controller state (Recorder)

The mutable fields of the `Recorder` instance that the claims are about,
together with the trace of events it pushed through its callbacks (both
callbacks are set by the API handler before `startRecording` is invoked).
`finalizeCount` counts executions of the body of `stopRecording` past its
`isStopping` guard. -/

structure RecState where
  isStopping : Bool
  monitorActive : Bool
  writeStreamOpen : Bool
  browserOpen : Bool
  webmExists : Bool
  webmSize : ℕ
  totalSize : ℕ
  outputMP4 : String
  events : List REvent
  finalizeCount : ℕ
deriving DecidableEq, Repr

/-- The state right after `setupRecording` succeeded: the write stream has
been created (so the WebM file exists with size 0), nothing captured yet, the
monitor interval is running. -/
def initState (sessionId : String) : RecState :=
  { isStopping := false
    monitorActive := true
    writeStreamOpen := true
    browserOpen := true
    webmExists := true
    webmSize := 0
    totalSize := 0
    outputMP4 := "/exports/meeting_" ++ sessionId ++ ".mp4"
    events := []
    finalizeCount := 0 }

/-! ### Encode supervisor (Recorder.convertToMP4)

The FFmpeg subprocess is abstracted by its elapsed running time and its exit
code; the kill timer fires exactly when the process outlives the computed
deadline.  Returns the events emitted during conversion and either the output
locator or the thrown error message. -/

def convertToMP4 (s : RecState) (ffmpegElapsedMs : ℚ) (ffmpegExitCode : ℕ) :
    List REvent × Except String String :=
  if s.webmExists = false then
    ([], .error "No recording data found to convert")
  else if s.webmSize = 0 then
    ([], .error "Recorded file is empty")
  else
    let pre := [REvent.progress "Converting recording to MP4..." none]
    if estimatedDurationMs s.webmSize < ffmpegElapsedMs then
      (pre, .error "FFmpeg process timed out")
    else if ffmpegExitCode = 0 then
      (pre, .ok s.outputMP4)
    else
      (pre, .error ("FFmpeg exited with code " ++ toString ffmpegExitCode))

/-- Arguments of one `stopRecording({ reason, error })` call, together with
the behaviour of the FFmpeg subprocess should the success path reach it. -/
structure StopArgs where
  reason : Option String
  err : Option String
  ffmpegElapsedMs : ℚ
  ffmpegExitCode : ℕ
deriving DecidableEq, Repr

/-- The terminal event of the success path of `stopRecording`: `complete`
when `convertToMP4` resolved, the conversion error otherwise. -/
def convertOutcomeEvents : Except String String → List REvent
  | .ok _ => [REvent.complete "Recording completed successfully"]
  | .error m => [REvent.error m]

/-- The progress event `stopRecording` emits when invoked with a `reason`
(`progress: 99`), and nothing otherwise. -/
def reasonEvents : Option String → List REvent
  | some r => [REvent.progress r (some 99)]
  | none => []

/-- The events emitted by the body of `stopRecording` (once past the
`isStopping` guard): the optional `reason` progress event at 99%, then either
the error report (error path) or the conversion events followed by the
terminal `complete`/`error` event. -/
def finalizeEvents (s : RecState) (a : StopArgs) : List REvent :=
  reasonEvents a.reason ++
  match a.err with
  | some e => [REvent.error e]
  | none =>
      (convertToMP4 s a.ffmpegElapsedMs a.ffmpegExitCode).1 ++
        convertOutcomeEvents (convertToMP4 s a.ffmpegElapsedMs a.ffmpegExitCode).2

/-- `Recorder.stopRecording`: returns immediately when `isStopping` is
already set; otherwise sets it, clears the monitor interval, stops the media
recorder, drains the chunk chain, closes the write stream and the browser,
then runs either the error report or the conversion, and in all of those
branches ends with `cleanupTempFiles` (deleting the WebM capture file). -/
def stopRecording (s : RecState) (a : StopArgs) : RecState :=
  if s.isStopping = true then s
  else
    { s with
      isStopping := true
      monitorActive := false
      writeStreamOpen := false
      browserOpen := false
      webmExists := false
      events := s.events ++ finalizeEvents s a
      finalizeCount := s.finalizeCount + 1 }

/-! ### Chunk accept path (Recorder.saveChunk, controller view)

Byte-level ordering is proved on `SinkState`; here `saveChunk` is modelled at
the controller level: its guard, its error report when the chained write
fails, and its effect on `totalSize`, the WebM file and the event trace. -/

def saveChunkR (s : RecState) (chunk : List ℕ) (writeOk : Bool) : RecState :=
  if s.writeStreamOpen = false then s
  else if writeOk = false then
    { s with events := s.events ++ [REvent.error "Failed to persist recording chunk"] }
  else
    { s with
      webmSize := s.webmSize + chunk.length
      totalSize := s.totalSize + chunk.length
      events := s.events ++
        [REvent.progress ("Captured " ++ toString (s.totalSize + chunk.length) ++ " bytes of data") none] }

/-! ### Monitor tick (Recorder.startRecordingMonitor)

Every 5 s the monitor evaluates the video status in the page; `none` stands
for the video element having disappeared. -/

structure VideoStatus where
  present : Bool
  currentTime : ℚ
  duration : ℚ
  ended : Bool
  online : Bool
deriving DecidableEq, Repr

/-- The `progress` event one monitor tick pushes:
`progress: Math.min(99, playbackPercent)` with a textual message. -/
def tickProgressEvent (st : VideoStatus) : REvent :=
  REvent.progress
    ("Recording in progress (" ++ toString (playbackPercent st.currentTime st.duration) ++
      " percent of playback)")
    (some (emittedPercent st.currentTime st.duration))

def monitorTick (s : RecState) (st : VideoStatus)
    (ffmpegElapsedMs : ℚ) (ffmpegExitCode : ℕ) : RecState :=
  if s.isStopping = true then s
  else if st.present = false then
    stopRecording
      { s with events := s.events ++ [REvent.error "Video element disappeared"] }
      ⟨none, some "Video element disappeared", ffmpegElapsedMs, ffmpegExitCode⟩
  else
    let s1 := { s with events := s.events ++ [tickProgressEvent st] }
    if st.ended = true then
      stopRecording s1 ⟨some "Video playback finished", none, ffmpegElapsedMs, ffmpegExitCode⟩
    else if st.online = false then
      stopRecording
        { s1 with events := s1.events ++ [REvent.error "Network connection lost during recording"] }
        ⟨none, some "Network connection lost during recording", ffmpegElapsedMs, ffmpegExitCode⟩
    else s1

/-! ### Capture-phase runs

A session's capture phase is an arbitrary interleaving of chunk deliveries,
monitor ticks, page-error handler firings (`page.on('error')` reports the
error and then calls `stopRecording({ error })`), and direct `stopRecording`
calls (the `startRecording` catch block, signal handlers). -/

inductive ROp where
  | save (chunk : List ℕ) (writeOk : Bool)
  | tick (st : VideoStatus) (ffmpegElapsedMs : ℚ) (ffmpegExitCode : ℕ)
  | pageError (msg : String) (ffmpegElapsedMs : ℚ) (ffmpegExitCode : ℕ)
  | stop (a : StopArgs)

def applyOp (s : RecState) : ROp → RecState
  | .save c ok => saveChunkR s c ok
  | .tick st e x => monitorTick s st e x
  | .pageError m e x =>
      stopRecording { s with events := s.events ++ [REvent.error m] } ⟨none, some m, e, x⟩
  | .stop a => stopRecording s a

def runOps (s : RecState) (ops : List ROp) : RecState :=
  ops.foldl applyOp s

/-! ### Progress bus (src/pages/api/record.js broadcastProgress,
src/pages/api/progress.js)

```js
global.progressClients.forEach(client => {
    const { res, recordingId } = client;
    if (recordingId && data.recordingId && recordingId !== data.recordingId) {
        return;
    }
    res.write(...);
});
```
An absent (or falsy) id is `none`. -/

structure SSEClient where
  filterId : Option String
deriving DecidableEq, Repr

structure BEvent where
  recordingId : Option String
  ty : String
deriving DecidableEq, Repr

/-- Whether `broadcastProgress` writes event `e` to client `c`. -/
def deliversTo (c : SSEClient) (e : BEvent) : Bool :=
  match c.filterId, e.recordingId with
  | some a, some b => a = b
  | _, _ => true

/-- The clients a broadcast of `e` reaches. -/
def broadcastRecipients (clients : List SSEClient) (e : BEvent) : List SSEClient :=
  clients.filter fun c => deliversTo c e

/-- An event published through a session's callbacks in the API handler:
`broadcastProgress({ recordingId, type, ...data })` always spreads the
session's `recordingId` into the payload. -/
def callbackEvent (recordingId : String) (ty : String) : BEvent :=
  ⟨some recordingId, ty⟩

/-- The broadcast in the API handler's outer `catch` block:
`broadcastProgress({ type: 'error', message })` — no `recordingId` field. -/
def setupErrorEvent : BEvent := ⟨none, "error"⟩

/-- The connection confirmation sent by the progress endpoint on subscribe. -/
def connectedEvent (recordingId : Option String) : BEvent :=
  ⟨recordingId, "connected"⟩

/-- A sequence of `stopRecording` calls on one recorder, in call order. -/
def runStops (s : RecState) (calls : List StopArgs) : RecState :=
  calls.foldl stopRecording s

/-! ## Helper lemmas -/

lemma completeCount_append (l₁ l₂ : List REvent) :
    completeCount (l₁ ++ l₂) = completeCount l₁ + completeCount l₂ := by
  simp [completeCount, List.filter_append]

lemma errorCount_append (l₁ l₂ : List REvent) :
    errorCount (l₁ ++ l₂) = errorCount l₁ + errorCount l₂ := by
  simp [errorCount, List.filter_append]

lemma progressVals_append (l₁ l₂ : List REvent) :
    progressVals (l₁ ++ l₂) = progressVals l₁ ++ progressVals l₂ := by
  simp [progressVals]

lemma stopRecording_stopped (s : RecState) (a : StopArgs)
    (h : s.isStopping = true) : stopRecording s a = s := by
  simp [stopRecording, h]

lemma stopRecording_fresh (s : RecState) (a : StopArgs)
    (h : s.isStopping = false) :
    stopRecording s a =
      { s with
        isStopping := true
        monitorActive := false
        writeStreamOpen := false
        browserOpen := false
        webmExists := false
        events := s.events ++ finalizeEvents s a
        finalizeCount := s.finalizeCount + 1 } := by
  simp [stopRecording, h]

lemma convertToMP4_fst (s : RecState) (e : ℚ) (x : ℕ) :
    (convertToMP4 s e x).1 = [] ∨
      (convertToMP4 s e x).1 = [REvent.progress "Converting recording to MP4..." none] := by
  unfold convertToMP4
  split_ifs <;> simp

lemma convertToMP4_fst_counts (s : RecState) (e : ℚ) (x : ℕ) :
    completeCount (convertToMP4 s e x).1 = 0 ∧
    errorCount (convertToMP4 s e x).1 = 0 ∧
    progressVals (convertToMP4 s e x).1 = [] := by
  rcases convertToMP4_fst s e x with h | h <;>
    simp [h, completeCount, errorCount, progressVals, isCompleteEv, isErrorEv]

lemma convertToMP4_snd_noFile (s : RecState) (e : ℚ) (x : ℕ)
    (h : s.webmExists = false) :
    (convertToMP4 s e x).2 = Except.error "No recording data found to convert" := by
  simp [convertToMP4, h]

lemma convertToMP4_snd_empty (s : RecState) (e : ℚ) (x : ℕ)
    (hex : s.webmExists = true) (h : s.webmSize = 0) :
    (convertToMP4 s e x).2 = Except.error "Recorded file is empty" := by
  simp [convertToMP4, hex, h]

lemma convertToMP4_snd_timeout (s : RecState) (e : ℚ) (x : ℕ)
    (hex : s.webmExists = true) (hsz : s.webmSize ≠ 0)
    (ht : estimatedDurationMs s.webmSize < e) :
    (convertToMP4 s e x).2 = Except.error "FFmpeg process timed out" := by
  simp [convertToMP4, hex, hsz, ht]

lemma convertToMP4_snd_ok (s : RecState) (e : ℚ) (x : ℕ)
    (hex : s.webmExists = true) (hsz : s.webmSize ≠ 0)
    (ht : ¬ estimatedDurationMs s.webmSize < e) (hx : x = 0) :
    (convertToMP4 s e x).2 = Except.ok s.outputMP4 := by
  simp [convertToMP4, hex, hsz, ht, hx]

lemma convertToMP4_snd_ok_iff (s : RecState) (e : ℚ) (x : ℕ) (p : String)
    (h : (convertToMP4 s e x).2 = Except.ok p) :
    s.webmExists = true ∧ s.webmSize ≠ 0 := by
  by_cases hex : s.webmExists = true
  · by_cases hsz : s.webmSize = 0
    · rw [convertToMP4_snd_empty s e x hex hsz] at h
      exact absurd h (by simp)
    · exact ⟨hex, hsz⟩
  · rw [convertToMP4_snd_noFile s e x (by simpa using hex)] at h
    exact absurd h (by simp)

lemma convertOutcomeEvents_counts (r : Except String String) :
    (completeCount (convertOutcomeEvents r) ≤ 1) ∧
    progressVals (convertOutcomeEvents r) = [] := by
  cases r <;>
    simp [convertOutcomeEvents, completeCount, progressVals, isCompleteEv]

lemma reasonEvents_counts (o : Option String) :
    completeCount (reasonEvents o) = 0 ∧
    errorCount (reasonEvents o) = 0 ∧
    ∀ v ∈ progressVals (reasonEvents o), v ≤ 99 := by
  cases o <;>
    simp [reasonEvents, completeCount, errorCount, progressVals, isCompleteEv, isErrorEv]

lemma finalize_err_counts (s : RecState) (a : StopArgs) (e : String)
    (h : a.err = some e) :
    completeCount (finalizeEvents s a) = 0 ∧
    errorCount (finalizeEvents s a) = 1 := by
  obtain ⟨h1, h2, _⟩ := reasonEvents_counts a.reason
  simp only [finalizeEvents, h, completeCount_append, errorCount_append, h1, h2]
  simp [completeCount, errorCount, isCompleteEv, isErrorEv]

lemma finalize_ok_counts (s : RecState) (a : StopArgs)
    (h : a.err = none) (hex : s.webmExists = true) (hsz : s.webmSize ≠ 0)
    (ht : ¬ estimatedDurationMs s.webmSize < a.ffmpegElapsedMs)
    (hx : a.ffmpegExitCode = 0) :
    completeCount (finalizeEvents s a) = 1 ∧
    errorCount (finalizeEvents s a) = 0 := by
  obtain ⟨h1, h2, _⟩ := reasonEvents_counts a.reason
  obtain ⟨c1, c2, _⟩ := convertToMP4_fst_counts s a.ffmpegElapsedMs a.ffmpegExitCode
  simp only [finalizeEvents, h, completeCount_append, errorCount_append, h1, h2, c1, c2,
    convertToMP4_snd_ok s a.ffmpegElapsedMs a.ffmpegExitCode hex hsz ht hx]
  simp [convertOutcomeEvents, completeCount, errorCount, isCompleteEv, isErrorEv]

lemma finalize_complete_le (s : RecState) (a : StopArgs) :
    completeCount (finalizeEvents s a) ≤ 1 := by
  obtain ⟨h1, _, _⟩ := reasonEvents_counts a.reason
  rcases ha : a.err with _ | e
  · obtain ⟨c1, _, _⟩ := convertToMP4_fst_counts s a.ffmpegElapsedMs a.ffmpegExitCode
    obtain ⟨o1, _⟩ :=
      convertOutcomeEvents_counts (convertToMP4 s a.ffmpegElapsedMs a.ffmpegExitCode).2
    simp only [finalizeEvents, ha, completeCount_append, h1, c1]
    omega
  · obtain ⟨h1', h2'⟩ := finalize_err_counts s a e ha
    omega

lemma finalize_complete_imp (s : RecState) (a : StopArgs)
    (hc : 0 < completeCount (finalizeEvents s a)) :
    a.err = none ∧ s.webmExists = true ∧ s.webmSize ≠ 0 := by
  rcases ha : a.err with _ | e
  · refine ⟨rfl, ?_⟩
    obtain ⟨h1, _, _⟩ := reasonEvents_counts a.reason
    obtain ⟨c1, _, _⟩ := convertToMP4_fst_counts s a.ffmpegElapsedMs a.ffmpegExitCode
    simp only [finalizeEvents, ha, completeCount_append, h1, c1] at hc
    rcases hr : (convertToMP4 s a.ffmpegElapsedMs a.ffmpegExitCode).2 with m | p
    · simp [convertOutcomeEvents, hr, completeCount, isCompleteEv] at hc
    · exact convertToMP4_snd_ok_iff s a.ffmpegElapsedMs a.ffmpegExitCode p hr
  · obtain ⟨h1, _⟩ := finalize_err_counts s a e ha
    omega

lemma finalize_pct_le (s : RecState) (a : StopArgs) :
    ∀ v ∈ progressVals (finalizeEvents s a), v ≤ 99 := by
  intro v hv
  obtain ⟨_, _, c3⟩ := convertToMP4_fst_counts s a.ffmpegElapsedMs a.ffmpegExitCode
  obtain ⟨_, o2⟩ :=
    convertOutcomeEvents_counts (convertToMP4 s a.ffmpegElapsedMs a.ffmpegExitCode).2
  rcases hr : a.reason with _ | r <;> rcases ha : a.err with _ | e <;>
    simp only [finalizeEvents, hr, ha, progressVals_append, c3, o2,
      List.append_nil, List.nil_append, List.mem_append] at hv <;>
    simp [progressVals, reasonEvents] at hv <;> omega

lemma completeCount_progress (m : String) (pv : Option Int) :
    completeCount [REvent.progress m pv] = 0 := rfl

lemma completeCount_error (m : String) : completeCount [REvent.error m] = 0 := rfl

lemma progressVals_error (m : String) : progressVals [REvent.error m] = [] := rfl

lemma progressVals_progress_none (m : String) :
    progressVals [REvent.progress m none] = [] := rfl

lemma progressVals_progress_some (m : String) (v : Int) :
    progressVals [REvent.progress m (some v)] = [v] := rfl

/-- The per-session trace invariant: at most one `complete` event ever, none
before the finalize routine has run, and every `progress` percentage emitted
during the capture phase is at most 99. -/
def traceInv (s : RecState) : Prop :=
  completeCount s.events ≤ 1 ∧
  (s.isStopping = false → completeCount s.events = 0) ∧
  (∀ v ∈ progressVals s.events, v ≤ 99)

lemma traceInv_append_neutral (s : RecState) (l : List REvent)
    (hc : completeCount l = 0) (hpv : ∀ v ∈ progressVals l, v ≤ 99)
    (h : traceInv s) :
    traceInv { s with events := s.events ++ l } := by
  obtain ⟨h1, h2, h3⟩ := h
  refine ⟨?_, ?_, ?_⟩
  · show completeCount (s.events ++ l) ≤ 1
    rw [completeCount_append, hc]
    omega
  · intro hf
    show completeCount (s.events ++ l) = 0
    rw [completeCount_append, hc, h2 hf]
  · intro v hv
    rcases List.mem_append.mp (by simpa [progressVals_append] using hv) with hv' | hv'
    · exact h3 v hv'
    · exact hpv v hv'

lemma stopRecording_traceInv (s : RecState) (a : StopArgs)
    (h0 : completeCount s.events = 0)
    (hp : ∀ v ∈ progressVals s.events, v ≤ 99) :
    traceInv (stopRecording s a) := by
  by_cases hs : s.isStopping = true
  · rw [stopRecording_stopped s a hs]
    exact ⟨by omega, fun _ => h0, hp⟩
  · rw [stopRecording_fresh s a (by simpa using hs)]
    refine ⟨?_, ?_, ?_⟩
    · show completeCount (s.events ++ finalizeEvents s a) ≤ 1
      rw [completeCount_append, h0]
      have := finalize_complete_le s a
      omega
    · intro hf
      exact absurd hf (by simp)
    · intro v hv
      rcases List.mem_append.mp (by simpa [progressVals_append] using hv) with hv' | hv'
      · exact hp v hv'
      · exact finalize_pct_le s a v hv'

lemma monitorTick_stopped (s : RecState) (st : VideoStatus) (e : ℚ) (x : ℕ)
    (h : s.isStopping = true) : monitorTick s st e x = s := by
  simp [monitorTick, h]

lemma monitorTick_noVideo (s : RecState) (st : VideoStatus) (e : ℚ) (x : ℕ)
    (h : s.isStopping = false) (hp : st.present = false) :
    monitorTick s st e x =
      stopRecording
        { s with events := s.events ++ [REvent.error "Video element disappeared"] }
        ⟨none, some "Video element disappeared", e, x⟩ := by
  simp [monitorTick, h, hp]

lemma monitorTick_ended (s : RecState) (st : VideoStatus) (e : ℚ) (x : ℕ)
    (h : s.isStopping = false) (hp : st.present = true) (he : st.ended = true) :
    monitorTick s st e x =
      stopRecording { s with events := s.events ++ [tickProgressEvent st] }
        ⟨some "Video playback finished", none, e, x⟩ := by
  simp [monitorTick, h, hp, he]

lemma monitorTick_offline (s : RecState) (st : VideoStatus) (e : ℚ) (x : ℕ)
    (h : s.isStopping = false) (hp : st.present = true) (he : st.ended = false)
    (ho : st.online = false) :
    monitorTick s st e x =
      stopRecording
        { s with events := (s.events ++ [tickProgressEvent st]) ++
            [REvent.error "Network connection lost during recording"] }
        ⟨none, some "Network connection lost during recording", e, x⟩ := by
  simp [monitorTick, h, hp, he, ho]

lemma monitorTick_running (s : RecState) (st : VideoStatus) (e : ℚ) (x : ℕ)
    (h : s.isStopping = false) (hp : st.present = true) (he : st.ended = false)
    (ho : st.online = true) :
    monitorTick s st e x = { s with events := s.events ++ [tickProgressEvent st] } := by
  simp [monitorTick, h, hp, he, ho]

lemma tickProgressEvent_pct (st : VideoStatus) :
    ∀ v ∈ progressVals [tickProgressEvent st], v ≤ 99 := by
  intro v hv
  simp [tickProgressEvent, progressVals] at hv
  exact hv ▸ min_le_left 99 _

lemma applyOp_traceInv (s : RecState) (op : ROp) (h : traceInv s) :
    traceInv (applyOp s op) := by
  obtain ⟨h1, h2, h3⟩ := h
  have herrpv : ∀ (m : String) (l : List REvent), (∀ v ∈ progressVals l, v ≤ 99) →
      ∀ v ∈ progressVals (l ++ [REvent.error m]), v ≤ 99 := by
    intro m l hl v hv
    rcases List.mem_append.mp (by simpa [progressVals_append] using hv) with hv' | hv'
    · exact hl v hv'
    · simp [progressVals] at hv'
  cases op with
  | save c ok =>
      show traceInv (saveChunkR s c ok)
      by_cases hw : s.writeStreamOpen = false
      · rw [show saveChunkR s c ok = s by simp [saveChunkR, hw]]
        exact ⟨h1, h2, h3⟩
      · by_cases hok : ok = false
        · rw [show saveChunkR s c ok =
              { s with events := s.events ++ [REvent.error "Failed to persist recording chunk"] } by
            simp [saveChunkR, hw, hok]]
          exact traceInv_append_neutral s _ (completeCount_error _)
            (by simp [progressVals_error]) ⟨h1, h2, h3⟩
        · have hok' : ok = true := by simpa using hok
          rw [show saveChunkR s c ok =
              { s with
                webmSize := s.webmSize + c.length
                totalSize := s.totalSize + c.length
                events := s.events ++
                  [REvent.progress ("Captured " ++ toString (s.totalSize + c.length) ++
                    " bytes of data") none] } by
            simp [saveChunkR, hw, hok']]
          refine ⟨?_, ?_, ?_⟩
          · show completeCount (s.events ++ [REvent.progress _ none]) ≤ 1
            rw [completeCount_append, completeCount_progress]
            omega
          · intro hf
            show completeCount (s.events ++ [REvent.progress _ none]) = 0
            rw [completeCount_append, completeCount_progress, h2 hf]
          · intro v hv
            rcases List.mem_append.mp (by simpa [progressVals_append] using hv) with hv' | hv'
            · exact h3 v hv'
            · simp [progressVals] at hv'
  | tick st e x =>
      show traceInv (monitorTick s st e x)
      by_cases hs : s.isStopping = true
      · rw [monitorTick_stopped s st e x hs]
        exact ⟨h1, h2, h3⟩
      · have hs' : s.isStopping = false := by simpa using hs
        have h0 : completeCount s.events = 0 := h2 hs'
        have hmid : ∀ v ∈ progressVals (s.events ++ [tickProgressEvent st]), v ≤ 99 := by
          intro v hv
          rcases List.mem_append.mp (by simpa [progressVals_append] using hv) with hv' | hv'
          · exact h3 v hv'
          · exact tickProgressEvent_pct st v hv'
        have hmid0 : completeCount (s.events ++ [tickProgressEvent st]) = 0 := by
          rw [completeCount_append, h0]
          simp [tickProgressEvent, completeCount, isCompleteEv]
        by_cases hpres : st.present = false
        · rw [monitorTick_noVideo s st e x hs' hpres]
          exact stopRecording_traceInv _ _
            (by rw [completeCount_append, h0, completeCount_error])
            (herrpv _ _ h3)
        · have hpres' : st.present = true := by simpa using hpres
          by_cases hend : st.ended = true
          · rw [monitorTick_ended s st e x hs' hpres' hend]
            exact stopRecording_traceInv _ _ hmid0 hmid
          · have hend' : st.ended = false := by simpa using hend
            by_cases honl : st.online = false
            · rw [monitorTick_offline s st e x hs' hpres' hend' honl]
              exact stopRecording_traceInv _ _
                (by rw [completeCount_append, hmid0, completeCount_error])
                (herrpv _ _ hmid)
            · have honl' : st.online = true := by simpa using honl
              rw [monitorTick_running s st e x hs' hpres' hend' honl']
              exact traceInv_append_neutral s _
                (by simp [tickProgressEvent, completeCount, isCompleteEv])
                (tickProgressEvent_pct st) ⟨h1, h2, h3⟩
  | pageError m e x =>
      show traceInv
        (stopRecording { s with events := s.events ++ [REvent.error m] } ⟨none, some m, e, x⟩)
      by_cases hs : s.isStopping = true
      · rw [stopRecording_stopped _ _ (by simpa using hs)]
        exact traceInv_append_neutral s _ (completeCount_error _)
          (by simp [progressVals_error]) ⟨h1, h2, h3⟩
      · exact stopRecording_traceInv _ _
          (by rw [completeCount_append, h2 (by simpa using hs), completeCount_error])
          (herrpv _ _ h3)
  | stop a =>
      show traceInv (stopRecording s a)
      by_cases hs : s.isStopping = true
      · rw [stopRecording_stopped s a hs]
        exact ⟨h1, h2, h3⟩
      · exact stopRecording_traceInv s a (h2 (by simpa using hs)) h3

lemma runOps_traceInv (s : RecState) (ops : List ROp) (h : traceInv s) :
    traceInv (runOps s ops) := by
  induction ops generalizing s with
  | nil => exact h
  | cons op rest ih => exact ih (applyOp s op) (applyOp_traceInv s op h)

lemma initState_traceInv (sessionId : String) : traceInv (initState sessionId) := by
  refine ⟨?_, ?_, ?_⟩ <;> simp [initState, traceInv, completeCount, progressVals]

lemma errorCount_errorEv (m : String) : errorCount [REvent.error m] = 1 := rfl

lemma estimatedDurationMs_nonneg (sizeBytes : ℕ) : 0 ≤ estimatedDurationMs sizeBytes := by
  unfold estimatedDurationMs BASE_TIMEOUT
  exact le_trans (by norm_num) (le_max_left _ _)

/-- The finalize-count invariant: `stopRecording` has run its body at most
once, and not at all while `isStopping` is still clear. -/
def stopInv (s : RecState) : Prop :=
  s.finalizeCount ≤ 1 ∧ (s.isStopping = false → s.finalizeCount = 0)

lemma stopRecording_stopInv (s : RecState) (a : StopArgs) (h : stopInv s) :
    stopInv (stopRecording s a) := by
  obtain ⟨h1, h2⟩ := h
  by_cases hs : s.isStopping = true
  · rw [stopRecording_stopped s a hs]
    exact ⟨h1, h2⟩
  · have hs' : s.isStopping = false := by simpa using hs
    have h0 := h2 hs'
    rw [stopRecording_fresh s a hs']
    constructor
    · show s.finalizeCount + 1 ≤ 1
      omega
    · intro hf
      exact absurd hf (by simp)

lemma saveChunkR_preserves (s : RecState) (c : List ℕ) (ok : Bool) :
    (saveChunkR s c ok).isStopping = s.isStopping ∧
    (saveChunkR s c ok).finalizeCount = s.finalizeCount := by
  unfold saveChunkR
  split_ifs <;> exact ⟨rfl, rfl⟩

lemma applyOp_stopInv (s : RecState) (op : ROp) (h : stopInv s) :
    stopInv (applyOp s op) := by
  obtain ⟨h1, h2⟩ := h
  cases op with
  | save c ok =>
      show stopInv (saveChunkR s c ok)
      obtain ⟨e1, e2⟩ := saveChunkR_preserves s c ok
      constructor
      · rw [e2]
        exact h1
      · rw [e1, e2]
        exact h2
  | tick st e x =>
      show stopInv (monitorTick s st e x)
      by_cases hs : s.isStopping = true
      · rw [monitorTick_stopped s st e x hs]
        exact ⟨h1, h2⟩
      · have hs' : s.isStopping = false := by simpa using hs
        by_cases hpres : st.present = false
        · rw [monitorTick_noVideo s st e x hs' hpres]
          exact stopRecording_stopInv _ _ ⟨h1, h2⟩
        · have hpres' : st.present = true := by simpa using hpres
          by_cases hend : st.ended = true
          · rw [monitorTick_ended s st e x hs' hpres' hend]
            exact stopRecording_stopInv _ _ ⟨h1, h2⟩
          · have hend' : st.ended = false := by simpa using hend
            by_cases honl : st.online = false
            · rw [monitorTick_offline s st e x hs' hpres' hend' honl]
              exact stopRecording_stopInv _ _ ⟨h1, h2⟩
            · have honl' : st.online = true := by simpa using honl
              rw [monitorTick_running s st e x hs' hpres' hend' honl']
              exact ⟨h1, h2⟩
  | pageError m e x =>
      show stopInv
        (stopRecording { s with events := s.events ++ [REvent.error m] } ⟨none, some m, e, x⟩)
      exact stopRecording_stopInv _ _ ⟨h1, h2⟩
  | stop a =>
      show stopInv (stopRecording s a)
      exact stopRecording_stopInv s a ⟨h1, h2⟩

lemma runOps_stopInv (s : RecState) (ops : List ROp) (h : stopInv s) :
    stopInv (runOps s ops) := by
  induction ops generalizing s with
  | nil => exact h
  | cons op rest ih => exact ih (applyOp s op) (applyOp_stopInv s op h)

/-- One monitor tick that finds the video ended while the state is healthy
(file present and non-empty, conversion finishing in time): it adds exactly
one `complete` event and no `error` event. -/
lemma ended_tick_success_counts (s : RecState) (st : VideoStatus) (e : ℚ) (x : ℕ)
    (hs : s.isStopping = false) (hp : st.present = true) (he : st.ended = true)
    (hex : s.webmExists = true) (hsz : s.webmSize ≠ 0)
    (ht : ¬ estimatedDurationMs s.webmSize < e) (hx : x = 0) :
    errorCount (monitorTick s st e x).events = errorCount s.events ∧
    completeCount (monitorTick s st e x).events = completeCount s.events + 1 := by
  rw [monitorTick_ended s st e x hs hp he,
    stopRecording_fresh { s with events := s.events ++ [tickProgressEvent st] }
      ⟨some "Video playback finished", none, e, x⟩ hs]
  obtain ⟨hc, herr⟩ := finalize_ok_counts
    { s with events := s.events ++ [tickProgressEvent st] }
    ⟨some "Video playback finished", none, e, x⟩ rfl hex hsz ht hx
  constructor
  · show errorCount ((s.events ++ [tickProgressEvent st]) ++ _) = _
    rw [errorCount_append, errorCount_append, herr]
    simp [tickProgressEvent, errorCount, isErrorEv]
  · show completeCount ((s.events ++ [tickProgressEvent st]) ++ _) = _
    rw [completeCount_append, completeCount_append, hc]
    simp [tickProgressEvent, completeCount, isCompleteEv]

/-- One monitor tick that finds connectivity lost: the monitor reports the
error, the finalize reports it again, conversion is skipped (no `complete`),
the capture file is deleted, and `totalSize` is untouched. -/
lemma offline_tick_effects (s : RecState) (st : VideoStatus) (e : ℚ) (x : ℕ)
    (hs : s.isStopping = false) (hp : st.present = true) (he : st.ended = false)
    (ho : st.online = false) :
    completeCount (monitorTick s st e x).events = completeCount s.events ∧
    errorCount (monitorTick s st e x).events = errorCount s.events + 2 ∧
    (monitorTick s st e x).webmExists = false ∧
    (monitorTick s st e x).totalSize = s.totalSize ∧
    (monitorTick s st e x).isStopping = true := by
  rw [monitorTick_offline s st e x hs hp he ho,
    stopRecording_fresh
      { s with events := (s.events ++ [tickProgressEvent st]) ++
          [REvent.error "Network connection lost during recording"] }
      ⟨none, some "Network connection lost during recording", e, x⟩ hs]
  obtain ⟨hc, herr⟩ := finalize_err_counts
    { s with events := (s.events ++ [tickProgressEvent st]) ++
        [REvent.error "Network connection lost during recording"] }
    ⟨none, some "Network connection lost during recording", e, x⟩
    "Network connection lost during recording" rfl
  refine ⟨?_, ?_, rfl, rfl, rfl⟩
  · show completeCount (((s.events ++ [tickProgressEvent st]) ++ [_]) ++ _) = _
    rw [completeCount_append, completeCount_append, completeCount_append, hc,
      completeCount_error]
    simp [tickProgressEvent, completeCount, isCompleteEv]
  · show errorCount (((s.events ++ [tickProgressEvent st]) ++ [_]) ++ _) = _
    rw [errorCount_append, errorCount_append, errorCount_append, herr, errorCount_errorEv]
    have : errorCount [tickProgressEvent st] = 0 := by
      simp [tickProgressEvent, errorCount, isErrorEv]
    omega

lemma runSink_cons (s : SinkState) (op : SinkOp) (ops : List SinkOp) :
    runSink s (op :: ops) = runSink (sinkStep s op) ops := rfl

lemma runSink_file_chain (ops : List SinkOp) : ∀ s : SinkState,
    (runSink s ops).file ++ (runSink s ops).chain.flatten =
      s.file ++ (s.chain.flatten ++ (arrivals ops).flatten) := by
  induction ops with
  | nil =>
      intro s
      simp [runSink, arrivals]
  | cons op rest ih =>
      intro s
      cases op with
      | arrive c =>
          rw [runSink_cons, ih]
          simp [sinkStep, arrivals, List.append_assoc]
      | flush =>
          rw [runSink_cons, ih]
          rcases hc : s.chain with _ | ⟨c, cs⟩ <;>
            simp [sinkStep, hc, arrivals, List.append_assoc]

/-! ## Claim theorems -/

/-- C1: For every sequence of chunks delivered to saveChunk, even when the
event loop interleaves the chained write completions arbitrarily with later
arrivals (reentrant callback contexts), the bytes persisted to the capture
WebM file once the chain is drained are exactly the concatenation of the
chunks in arrival order: each write is queued behind the previous one, so
write order on disk equals arrival order. -/
theorem saveChunk_write_order (ops : List SinkOp) :
    (drainSink (runSink sinkInit ops)).file = (arrivals ops).flatten := by
  have h := runSink_file_chain ops sinkInit
  simpa [drainSink, sinkInit] using h

/-- C2: stopRecording is idempotent through the single isStopping flag: the
first of any sequence of calls (whatever each call carries) runs the finalize
routine exactly once, every later call returns immediately leaving the state
untouched, and over any whole capture-phase run (monitor ticks, page errors,
direct calls) the finalize routine executes at most once. -/
theorem stopRecording_idempotent (s : RecState) (a : StopArgs) (rest : List StopArgs)
    (hs : s.isStopping = false) :
    runStops s (a :: rest) = stopRecording s a ∧
    (runStops s (a :: rest)).finalizeCount = s.finalizeCount + 1 ∧
    (∀ (sessionId : String) (ops : List ROp),
      (runOps (initState sessionId) ops).finalizeCount ≤ 1) := by
  have hstop : (stopRecording s a).isStopping = true := by
    rw [stopRecording_fresh s a hs]
  have hfix : ∀ (l : List StopArgs) (t : RecState), t.isStopping = true →
      runStops t l = t := by
    intro l
    induction l with
    | nil => intro t _; rfl
    | cons b bs ih =>
        intro t ht
        show runStops (stopRecording t b) bs = t
        rw [stopRecording_stopped t b ht]
        exact ih t ht
  have hrun : runStops s (a :: rest) = stopRecording s a := by
    show runStops (stopRecording s a) rest = stopRecording s a
    exact hfix rest (stopRecording s a) hstop
  refine ⟨hrun, ?_, ?_⟩
  · rw [hrun, stopRecording_fresh s a hs]
  · intro sessionId ops
    refine (runOps_stopInv (initState sessionId) ops ⟨?_, ?_⟩).1
    · show (0 : ℕ) ≤ 1
      omega
    · intro _
      rfl

/-- Witness for C2 at a concrete triple of calls. -/
theorem stopRecording_idempotent_witness :
    runStops (initState "w2") (⟨none, none, 0, 0⟩ ::
        [⟨none, none, 0, 0⟩, ⟨none, some "late trigger", 0, 0⟩]) =
      stopRecording (initState "w2") ⟨none, none, 0, 0⟩ ∧
    (runStops (initState "w2") (⟨none, none, 0, 0⟩ ::
        [⟨none, none, 0, 0⟩, ⟨none, some "late trigger", 0, 0⟩])).finalizeCount =
      (initState "w2").finalizeCount + 1 ∧
    (∀ (sessionId : String) (ops : List ROp),
      (runOps (initState sessionId) ops).finalizeCount ≤ 1) :=
  stopRecording_idempotent (initState "w2") ⟨none, none, 0, 0⟩
    [⟨none, none, 0, 0⟩, ⟨none, some "late trigger", 0, 0⟩] rfl

/-- The capture-phase run refuting C3: one chunk persists, the next chunk
write fails (reported through errorCallback), then the video ends and the
conversion succeeds, so the very same session emits both an error event and a
complete event. -/
def bothEventsOps : List ROp :=
  [ROp.save [1, 2, 3] true, ROp.save [4] false,
   ROp.tick ⟨true, 10, 10, true, true⟩ 0 0]

/-- C3 counterexample: a session whose trace carries exactly one error event
and exactly one complete event, contradicting the claim that no session ever
emits both, and that a failing write makes the whole session fail. -/
theorem session_emits_error_and_complete :
    errorCount (runOps (initState "cx3") bothEventsOps).events = 1 ∧
    completeCount (runOps (initState "cx3") bothEventsOps).events = 1 := by
  have hrun : runOps (initState "cx3") bothEventsOps =
      monitorTick (saveChunkR (saveChunkR (initState "cx3") [1, 2, 3] true) [4] false)
        ⟨true, 10, 10, true, true⟩ 0 0 := rfl
  obtain ⟨herr, hcomp⟩ := ended_tick_success_counts
    (saveChunkR (saveChunkR (initState "cx3") [1, 2, 3] true) [4] false)
    ⟨true, 10, 10, true, true⟩ 0 0 rfl rfl rfl rfl (by decide)
    (not_lt.mpr (estimatedDurationMs_nonneg _)) rfl
  rw [hrun, herr, hcomp]
  constructor <;> rfl

/-- C3 amended: every session emits at most one complete event; the finalize
routine itself emits exactly one terminal event (one error and no complete on
the error path, one complete and no error when conversion succeeds); but a
failure reported outside the finalize (a failed chunk write, or the monitor
reporting before it invokes stopRecording) can add further error events, so a
failing session may emit more than one error event and a session with a
non-fatal persistence error may emit an error and still complete. -/
theorem terminal_events_amended :
    (∀ (sessionId : String) (ops : List ROp),
      completeCount (runOps (initState sessionId) ops).events ≤ 1) ∧
    (∀ (s : RecState) (a : StopArgs) (e : String), a.err = some e →
      completeCount (finalizeEvents s a) = 0 ∧ errorCount (finalizeEvents s a) = 1) ∧
    (∀ (s : RecState) (a : StopArgs), a.err = none → s.webmExists = true →
      s.webmSize ≠ 0 → ¬ estimatedDurationMs s.webmSize < a.ffmpegElapsedMs →
      a.ffmpegExitCode = 0 →
      completeCount (finalizeEvents s a) = 1 ∧ errorCount (finalizeEvents s a) = 0) := by
  refine ⟨?_, finalize_err_counts, finalize_ok_counts⟩
  intro sessionId ops
  exact (runOps_traceInv (initState sessionId) ops (initState_traceInv sessionId)).1

/-- Witness for C3 amended at concrete states and arguments. -/
theorem terminal_events_amended_witness :
    completeCount (runOps (initState "w3") []).events ≤ 1 ∧
    (completeCount (finalizeEvents (initState "w3") ⟨none, some "boom", 0, 0⟩) = 0 ∧
      errorCount (finalizeEvents (initState "w3") ⟨none, some "boom", 0, 0⟩) = 1) ∧
    (completeCount (finalizeEvents { initState "w3" with webmSize := 5 }
        ⟨none, none, 0, 0⟩) = 1 ∧
      errorCount (finalizeEvents { initState "w3" with webmSize := 5 }
        ⟨none, none, 0, 0⟩) = 0) :=
  ⟨terminal_events_amended.1 "w3" [],
   terminal_events_amended.2.1 (initState "w3") ⟨none, some "boom", 0, 0⟩ "boom" rfl,
   terminal_events_amended.2.2 { initState "w3" with webmSize := 5 }
     ⟨none, none, 0, 0⟩ rfl rfl (by decide)
     (not_lt.mpr (estimatedDurationMs_nonneg _)) rfl⟩

/-- C4: whenever the finalize routine runs (any terminal outcome: error path,
conversion failure including the encode timeout, or success), the raw capture
WebM file is deleted by cleanupTempFiles. -/
theorem cleanup_on_terminal (s : RecState) (a : StopArgs)
    (hs : s.isStopping = false) :
    (stopRecording s a).webmExists = false := by
  rw [stopRecording_fresh s a hs]

/-- Witness for C4 at a concrete state and argument. -/
theorem cleanup_on_terminal_witness :
    (stopRecording (initState "w4") ⟨none, some "fatal", 0, 0⟩).webmExists = false :=
  cleanup_on_terminal (initState "w4") ⟨none, some "fatal", 0, 0⟩ rfl

/-- The run refuting C5: two bytes captured, then a monitor tick finds the
connection lost. -/
def connectivityLossOps : List ROp :=
  [ROp.save [1, 2] true, ROp.tick ⟨true, 5, 10, false, false⟩ 0 0]

/-- C5 counterexample: on connectivity loss the session emits no complete
event at all and two error events, so it does not proceed through ENCODING to
DONE as the claim states. -/
theorem connectivityLoss_not_done :
    completeCount (runOps (initState "cx5") connectivityLossOps).events = 0 ∧
    errorCount (runOps (initState "cx5") connectivityLossOps).events = 2 ∧
    (runOps (initState "cx5") connectivityLossOps).totalSize = 2 := by
  have hrun : runOps (initState "cx5") connectivityLossOps =
      monitorTick (saveChunkR (initState "cx5") [1, 2] true)
        ⟨true, 5, 10, false, false⟩ 0 0 := rfl
  obtain ⟨hc, herr, _, htot, _⟩ := offline_tick_effects
    (saveChunkR (initState "cx5") [1, 2] true)
    ⟨true, 5, 10, false, false⟩ 0 0 rfl rfl rfl rfl
  rw [hrun, hc, herr, htot]
  refine ⟨rfl, rfl, rfl⟩

/-- C5 amended: connectivity loss mid-capture takes the error stop path, not
the success path: recording stops (the stop flag is set and the capture file
is deleted), the monitor and the finalize each emit an error event, no
complete event is emitted, and bytesCaptured keeps only the bytes received
before the loss. -/
theorem connectivityLoss_error_path (s : RecState) (st : VideoStatus)
    (e : ℚ) (x : ℕ) (hs : s.isStopping = false) (hp : st.present = true)
    (he : st.ended = false) (ho : st.online = false) :
    completeCount (monitorTick s st e x).events = completeCount s.events ∧
    errorCount (monitorTick s st e x).events = errorCount s.events + 2 ∧
    (monitorTick s st e x).webmExists = false ∧
    (monitorTick s st e x).totalSize = s.totalSize ∧
    (monitorTick s st e x).isStopping = true :=
  offline_tick_effects s st e x hs hp he ho

/-- Witness for C5 amended at a concrete state and tick. -/
theorem connectivityLoss_error_path_witness :
    completeCount (monitorTick { initState "w5" with webmSize := 7, totalSize := 7 }
        ⟨true, 1, 4, false, false⟩ 0 0).events =
      completeCount ({ initState "w5" with webmSize := 7, totalSize := 7 } : RecState).events ∧
    errorCount (monitorTick { initState "w5" with webmSize := 7, totalSize := 7 }
        ⟨true, 1, 4, false, false⟩ 0 0).events =
      errorCount ({ initState "w5" with webmSize := 7, totalSize := 7 } : RecState).events + 2 ∧
    (monitorTick { initState "w5" with webmSize := 7, totalSize := 7 }
        ⟨true, 1, 4, false, false⟩ 0 0).webmExists = false ∧
    (monitorTick { initState "w5" with webmSize := 7, totalSize := 7 }
        ⟨true, 1, 4, false, false⟩ 0 0).totalSize =
      ({ initState "w5" with webmSize := 7, totalSize := 7 } : RecState).totalSize ∧
    (monitorTick { initState "w5" with webmSize := 7, totalSize := 7 }
        ⟨true, 1, 4, false, false⟩ 0 0).isStopping = true :=
  connectivityLoss_error_path { initState "w5" with webmSize := 7, totalSize := 7 }
    ⟨true, 1, 4, false, false⟩ 0 0 rfl rfl rfl rfl

/-- C6: the encode deadline equals
max(baseTimeout, estimatedInputDurationMs * processingMultiplier) with the
size-derived duration estimate (size in MB times a fixed throughput
constant), and a conversion whose encoder runs past that deadline fails with
the timeout error instead of returning an output locator. -/
theorem encode_deadline_policy (sizeBytes : ℕ) (s : RecState) (e : ℚ) (x : ℕ) :
    estimatedDurationMs sizeBytes =
      max BASE_TIMEOUT (estimatedInputDurationMs sizeBytes * MAX_PROCESSING_MULTIPLIER) ∧
    (s.webmExists = true → s.webmSize ≠ 0 → estimatedDurationMs s.webmSize < e →
      (convertToMP4 s e x).2 = Except.error "FFmpeg process timed out") :=
  ⟨rfl, convertToMP4_snd_timeout s e x⟩

/-- Witness for C6: a one-byte file keeps the base timeout as its deadline
and a conversion running past it fails with the timeout error. -/
theorem encode_deadline_policy_witness :
    estimatedDurationMs 1 =
      max BASE_TIMEOUT (estimatedInputDurationMs 1 * MAX_PROCESSING_MULTIPLIER) ∧
    (convertToMP4 { initState "w6" with webmSize := 1 } 130000 0).2 =
      Except.error "FFmpeg process timed out" :=
  ⟨(encode_deadline_policy 1 { initState "w6" with webmSize := 1 } 130000 0).1,
   (encode_deadline_policy 1 { initState "w6" with webmSize := 1 } 130000 0).2
     rfl (by decide)
     (by
       show estimatedDurationMs 1 < 130000
       unfold estimatedDurationMs BASE_TIMEOUT
       rw [max_lt_iff]
       norm_num)⟩

/-- C7 counterexample: the monitor percentage uses Math.round, not floor: at
currentTime 101 and duration 200 the emitted value is 51 while the claimed
floor formula yields 50. -/
theorem progress_formula_not_floor :
    emittedPercent 101 200 = 51 ∧ claimedPercent 101 200 = 50 ∧
    emittedPercent 101 200 ≠ claimedPercent 101 200 := by
  refine ⟨?_, ?_, ?_⟩
  · norm_num [emittedPercent, playbackPercent, jsRound]
  · norm_num [claimedPercent]
  · norm_num [emittedPercent, playbackPercent, jsRound, claimedPercent]

/-- C7 amended: the emitted capture-phase percentage is
min(99, round(currentPosition/duration * 100)) (0 when the duration is 0); it
is monotone in the playback position for a fixed duration, never exceeds 99,
and no capture-phase progress event ever carries a value above 99, so no
event before the terminal one carries 100. -/
theorem monitor_percent_amended :
    (∀ currentTime duration : ℚ, duration ≠ 0 →
      emittedPercent currentTime duration =
        min 99 (jsRound (currentTime / duration * 100))) ∧
    (∀ c₁ c₂ d : ℚ, 0 < d → c₁ ≤ c₂ →
      emittedPercent c₁ d ≤ emittedPercent c₂ d) ∧
    (∀ c d : ℚ, emittedPercent c d ≤ 99) ∧
    (∀ (sessionId : String) (ops : List ROp),
      ∀ v ∈ progressVals (runOps (initState sessionId) ops).events, v ≤ 99) := by
  refine ⟨?_, ?_, ?_, ?_⟩
  · intro c d hd
    unfold emittedPercent playbackPercent
    rw [if_neg hd, ← min_assoc]
    norm_num
  · intro c₁ c₂ d hd h
    unfold emittedPercent playbackPercent
    rw [if_neg (ne_of_gt hd), if_neg (ne_of_gt hd)]
    refine min_le_min le_rfl (min_le_min le_rfl ?_)
    unfold jsRound
    have hdiv : c₁ / d ≤ c₂ / d := by gcongr
    have hmul : c₁ / d * 100 ≤ c₂ / d * 100 :=
      mul_le_mul_of_nonneg_right hdiv (by norm_num)
    exact Int.floor_mono (by linarith)
  · intro c d
    exact min_le_left 99 _
  · intro sessionId ops
    exact (runOps_traceInv (initState sessionId) ops (initState_traceInv sessionId)).2.2

/-- Witness for C7 amended at concrete positions, durations and a run. -/
theorem monitor_percent_amended_witness :
    emittedPercent 1 4 = min 99 (jsRound (1 / 4 * 100)) ∧
    emittedPercent 1 4 ≤ emittedPercent 2 4 ∧
    emittedPercent 3 7 ≤ 99 ∧
    (∀ v ∈ progressVals (runOps (initState "w7") []).events, v ≤ 99) :=
  ⟨monitor_percent_amended.1 1 4 (by norm_num),
   monitor_percent_amended.2.1 1 2 4 (by norm_num) (by norm_num),
   monitor_percent_amended.2.2.1 3 7,
   monitor_percent_amended.2.2.2 "w7" []⟩

/-- C8 counterexample: the setup-failure broadcast carries no recordingId, so
a subscriber filtered to session A receives it although it is neither an
event of session A nor the connection confirmation — refuting both that a
filtered subscriber observes only its own sessions events plus the
confirmation, and that every event published after session creation carries
the originating session identifier. -/
theorem unscoped_event_reaches_filtered_subscriber :
    deliversTo ⟨some "A"⟩ setupErrorEvent = true ∧
    (⟨some "A"⟩ : SSEClient) ∈ broadcastRecipients [⟨some "A"⟩] setupErrorEvent ∧
    setupErrorEvent.recordingId ≠ some "A" ∧
    setupErrorEvent.ty ≠ "connected" := by
  refine ⟨rfl, ?_, by decide, by decide⟩
  simp [broadcastRecipients, deliversTo, setupErrorEvent]

/-- C8 amended: a subscriber filtered to session A never receives an event
carrying a different session identifier B; everything it receives carries
either its own identifier or none at all (the connection confirmation and the
setup-failure error broadcast are the id-free cases); and every event
published through a sessions callbacks carries that sessions identifier. -/
theorem session_scoped_delivery :
    (∀ (clients : List SSEClient) (c : SSEClient) (e : BEvent) (a b : String),
      c.filterId = some a → e.recordingId = some b → a ≠ b →
      c ∉ broadcastRecipients clients e) ∧
    (∀ (c : SSEClient) (e : BEvent) (a : String), c.filterId = some a →
      deliversTo c e = true → e.recordingId = none ∨ e.recordingId = some a) ∧
    (∀ (recordingId ty : String),
      (callbackEvent recordingId ty).recordingId = some recordingId) := by
  refine ⟨?_, ?_, fun _ _ => rfl⟩
  · intro clients c e a b hc he hne hmem
    have hd : deliversTo c e = true := (List.mem_filter.mp hmem).2
    rw [deliversTo] at hd
    rw [hc, he] at hd
    simp at hd
    exact hne hd
  · intro c e a hc hd
    rcases he : e.recordingId with _ | b
    · exact Or.inl rfl
    · rw [deliversTo] at hd
      rw [hc, he] at hd
      simp at hd
      exact Or.inr (by rw [hd])

/-- Witness for C8 amended at concrete clients and events. -/
theorem session_scoped_delivery_witness :
    (⟨some "A"⟩ : SSEClient) ∉
      broadcastRecipients [⟨some "A"⟩] (callbackEvent "B" "progress") ∧
    ((callbackEvent "A" "progress").recordingId = none ∨
      (callbackEvent "A" "progress").recordingId = some "A") ∧
    (callbackEvent "A" "complete").recordingId = some "A" :=
  ⟨session_scoped_delivery.1 [⟨some "A"⟩] ⟨some "A"⟩ (callbackEvent "B" "progress")
      "A" "B" rfl rfl (by decide),
   session_scoped_delivery.2.1 ⟨some "A"⟩ (callbackEvent "A" "progress") "A" rfl rfl,
   session_scoped_delivery.2.2 "A" "complete"⟩

/-- C9: the effective playback rate is the requested rate clamped into
[0.5, 2]: 0.1 gives 0.5, 3 gives 2, 1.25 gives 1.25; a non-finite or
non-positive request falls back to the default 1; and the result always lies
in [0.5, 2]. -/
theorem playbackRate_clamped :
    playbackRateOf true (1/10) = 1/2 ∧
    playbackRateOf true 3 = 2 ∧
    playbackRateOf true (5/4) = 5/4 ∧
    (∀ (isFinite : Bool) (rate : ℚ), ¬(isFinite = true ∧ 0 < rate) →
      playbackRateOf isFinite rate = 1) ∧
    (∀ (isFinite : Bool) (rate : ℚ),
      1/2 ≤ playbackRateOf isFinite rate ∧ playbackRateOf isFinite rate ≤ 2) := by
  refine ⟨?_, ?_, ?_, ?_, ?_⟩
  · norm_num [playbackRateOf]
  · norm_num [playbackRateOf]
  · norm_num [playbackRateOf]
  · intro f r h
    simp only [playbackRateOf, if_neg h]
  · intro f r
    unfold playbackRateOf
    split_ifs with h
    · constructor
      · exact le_min (by norm_num) (le_max_left _ _)
      · exact min_le_left _ _
    · norm_num

/-- Witness for C9: a non-finite request yields the default, which lies in
the clamp range. -/
theorem playbackRate_clamped_witness :
    playbackRateOf false 7 = 1 ∧
    1/2 ≤ playbackRateOf false 7 ∧ playbackRateOf false 7 ≤ 2 :=
  ⟨playbackRate_clamped.2.2.2.1 false 7 (by simp),
   (playbackRate_clamped.2.2.2.2 false 7).1,
   (playbackRate_clamped.2.2.2.2 false 7).2⟩

/-- C10: if stopRecording runs without a prior error but no capture data was
persisted (the WebM file is missing or empty), the finalize emits an error
event with the corresponding conversion message and no complete event; and a
finalize can only emit a complete event when the file exists and is
non-empty, so a session never completes with zero captured bytes. -/
theorem no_complete_without_data (s : RecState) (a : StopArgs)
    (hs : s.isStopping = false) (hne : a.err = none)
    (hbad : s.webmExists = false ∨ s.webmSize = 0) :
    completeCount (stopRecording s a).events = completeCount s.events ∧
    errorCount (stopRecording s a).events = errorCount s.events + 1 ∧
    (s.webmExists = false →
      REvent.error "No recording data found to convert" ∈ (stopRecording s a).events) ∧
    (s.webmExists = true →
      REvent.error "Recorded file is empty" ∈ (stopRecording s a).events) ∧
    (∀ (s' : RecState) (a' : StopArgs), 0 < completeCount (finalizeEvents s' a') →
      s'.webmExists = true ∧ s'.webmSize ≠ 0) := by
  have hmsg : ∀ m : String,
      (convertToMP4 s a.ffmpegElapsedMs a.ffmpegExitCode).2 = Except.error m →
      finalizeEvents s a =
        reasonEvents a.reason ++
          ((convertToMP4 s a.ffmpegElapsedMs a.ffmpegExitCode).1 ++ [REvent.error m]) := by
    intro m hm
    rw [finalizeEvents, hne, hm]
    simp [convertOutcomeEvents]
  have hfst : (convertToMP4 s a.ffmpegElapsedMs a.ffmpegExitCode).1 = [] := by
    rcases hbad with hb | hb
    · simp [convertToMP4, hb]
    · rcases hex : s.webmExists with _ | _
      · simp [convertToMP4, hex]
      · simp [convertToMP4, hex, hb]
  have hkey : ∃ m : String, finalizeEvents s a =
      reasonEvents a.reason ++ [REvent.error m] ∧
      ((s.webmExists = false → m = "No recording data found to convert") ∧
       (s.webmExists = true → m = "Recorded file is empty")) := by
    rcases hex : s.webmExists with _ | _
    · refine ⟨"No recording data found to convert", ?_, fun _ => rfl,
        fun h => absurd h (by simp)⟩
      rw [hmsg _ (convertToMP4_snd_noFile s _ _ hex), hfst]
      simp
    · have hz : s.webmSize = 0 := by
        rcases hbad with hb | hb
        · rw [hex] at hb
          exact absurd hb (by simp)
        · exact hb
      refine ⟨"Recorded file is empty", ?_, fun h => absurd h (by simp),
        fun _ => rfl⟩
      rw [hmsg _ (convertToMP4_snd_empty s _ _ hex hz), hfst]
      simp
  obtain ⟨m, hfin, hmf, hmt⟩ := hkey
  obtain ⟨r0, hrerr, _⟩ := reasonEvents_counts a.reason
  rw [stopRecording_fresh s a hs]
  refine ⟨?_, ?_, ?_, ?_, ?_⟩
  · show completeCount (s.events ++ finalizeEvents s a) = completeCount s.events
    rw [completeCount_append, hfin, completeCount_append, r0, completeCount_error]
    omega
  · show errorCount (s.events ++ finalizeEvents s a) = errorCount s.events + 1
    rw [errorCount_append, hfin, errorCount_append, hrerr, errorCount_errorEv]
  · intro hex
    show REvent.error "No recording data found to convert" ∈ s.events ++ finalizeEvents s a
    rw [hfin, hmf hex]
    simp
  · intro hex
    show REvent.error "Recorded file is empty" ∈ s.events ++ finalizeEvents s a
    rw [hfin, hmt hex]
    simp
  · intro s' a' hc
    exact (finalize_complete_imp s' a' hc).2

/-- Witness for C10 at the empty-file state right after setup. -/
theorem no_complete_without_data_witness :
    completeCount (stopRecording (initState "w10") ⟨none, none, 0, 0⟩).events =
      completeCount (initState "w10").events ∧
    errorCount (stopRecording (initState "w10") ⟨none, none, 0, 0⟩).events =
      errorCount (initState "w10").events + 1 ∧
    ((initState "w10").webmExists = false →
      REvent.error "No recording data found to convert" ∈
        (stopRecording (initState "w10") ⟨none, none, 0, 0⟩).events) ∧
    ((initState "w10").webmExists = true →
      REvent.error "Recorded file is empty" ∈
        (stopRecording (initState "w10") ⟨none, none, 0, 0⟩).events) ∧
    (∀ (s' : RecState) (a' : StopArgs), 0 < completeCount (finalizeEvents s' a') →
      s'.webmExists = true ∧ s'.webmSize ≠ 0) :=
  no_complete_without_data (initState "w10") ⟨none, none, 0, 0⟩ rfl rfl (Or.inr rfl)

end BBBRecorder
